import Mathlib

/-!
Verification of the dth-web user-registration backend: the rating-value
validation rule (src/app/main.py, `UserCreate.rating_must_be_valid`), the
create/list endpoints (`create_user`, `read_users`), and the persistence
schema's checked constraints (src/app/db/db.py, `User.__table_args__`),
embedded shallowly with exact rational arithmetic and an explicit list of
stored rows as the state of the user store.
-/

deriving instance DecidableEq for Except

/-- Tolerance used by the rating validator: `epsilon = 1e-9`
(src/app/main.py line 52). -/
def epsilon : ℚ := 1 / 1000000000

/-- Banker's rounding (round half to even): the behaviour of Python's
built-in `round` with one argument, which the validator applies to
`value * 2` (src/app/main.py line 54). -/
def pyRound (q : ℚ) : ℤ :=
  if q - ⌊q⌋ < 1/2 then ⌊q⌋
  else if 1/2 < q - ⌊q⌋ then ⌊q⌋ + 1
  else if ⌊q⌋ % 2 = 0 then ⌊q⌋ else ⌊q⌋ + 1

/-- The rating field validator `UserCreate.rating_must_be_valid`
(src/app/main.py lines 38-57), clause by clause: the null check, the range
check `1.0 <= value <= 5.0`, and the increment check
`abs(scaled_value - round(scaled_value)) > epsilon or
round(scaled_value) % 1 != 0`. The argument is `none` when the validator
would receive Python `None`. -/
def rating_must_be_valid (value : Option ℚ) : Except String ℚ :=
  match value with
  | none => Except.error "Rating cannot be null. Omit the field to use the default or provide a valid float value"
  | some value =>
    if ¬(1 ≤ value ∧ value ≤ 5) then
      Except.error "Rating must be between 1.0 and 5.0"
    else
      if |value * 2 - (pyRound (value * 2) : ℚ)| > epsilon ∨ pyRound (value * 2) % 1 ≠ 0 then
        Except.error "Rating must be in increments of 0.5 (e.g., 1.0, 1.5, 2.0)"
      else
        Except.ok value

/-- A stored row of the `users` table: the SQLAlchemy model `User`
(src/app/db/db.py lines 21-46). Rows are kept in insertion order and `id` is
the autoincrement value assigned at insertion. -/
structure User where
  id : ℕ
  username : String
  email : String
  full_name : Option String
  rating : ℚ
  deriving DecidableEq

/-- The validated request model `UserCreate` (src/app/main.py lines 32-36),
after Pydantic type checking and the field validator have accepted it. -/
structure UserCreate where
  username : String
  email : String
  full_name : Option String
  rating : ℚ
  deriving DecidableEq

/-- Raw JSON body of a create request. The rating field distinguishes an
omitted field (`none`), an explicit null (`some none`), and a numeric value
(`some (some v)`). -/
structure CreateRequest where
  username : String
  email : String
  full_name : Option String
  rating : Option (Option ℚ)
  deriving DecidableEq

/-- Pydantic's construction of `UserCreate` from the request body
(src/app/main.py lines 32-36): an omitted rating takes the declared default
3.0 (field validators do not run on defaults), an explicit null fails the
`float` type check before the field validator runs -- the repository's test
suite pins that 422 message to "Input should be a valid number"
(src/tests/test_main.py line 186) -- and a numeric value goes through
`rating_must_be_valid`. -/
def parseUserCreate (req : CreateRequest) : Except String UserCreate :=
  match req.rating with
  | none => Except.ok ⟨req.username, req.email, req.full_name, 3⟩
  | some none => Except.error "Input should be a valid number"
  | some (some v) =>
    match rating_must_be_valid (some v) with
    | Except.error e => Except.error e
    | Except.ok r => Except.ok ⟨req.username, req.email, req.full_name, r⟩

/-- The POST /users/ handler `create_user` (src/app/main.py lines 83-98) on an
already validated `UserCreate`. The two look-ups mirror the two
`filter(...).first()` pre-checks; a successful insert appends a row whose id
is the next autoincrement value. Errors carry the status code and detail of
the raised HTTPException. The result pairs the response with the store after
the request. -/
def create_user (user : UserCreate) (db : List User) :
    Except (ℕ × String) User × List User :=
  match db.find? (fun r => r.username == user.username) with
  | some _ => (Except.error (400, "Username already registered"), db)
  | none =>
    match db.find? (fun r => r.email == user.email) with
    | some _ => (Except.error (400, "Email already registered"), db)
    | none =>
      let db_user : User :=
        ⟨db.length + 1, user.username, user.email, user.full_name, user.rating⟩
      (Except.ok db_user, db ++ [db_user])

/-- The POST /users/ endpoint on the raw request body: Pydantic validation
(a 422 carrying the validation message) followed by `create_user`. -/
def handle_create (req : CreateRequest) (db : List User) :
    Except (ℕ × String) User × List User :=
  match parseUserCreate req with
  | Except.error e => (Except.error (422, e), db)
  | Except.ok user => create_user user db

/-- The GET /users/ handler `read_users` (src/app/main.py lines 101-104):
`db.query(User).offset(skip).limit(limit).all()` over the rows in insertion
order. The result pairs the response with the store after the request. -/
def read_users (skip limit : ℕ) (db : List User) : List User × List User :=
  ((db.drop skip).take limit, db)

/-- SQLite's CAST of a numeric value to INTEGER truncates toward zero; the
`%` operator applies this cast to both of its operands. -/
def sqliteCastToInt (q : ℚ) : ℤ :=
  if 0 ≤ q then ⌊q⌋ else ⌈q⌉

/-- Check constraint `ck_users_rating_range`:
`rating >= 1.0 AND rating <= 5.0` (src/app/db/db.py lines 33-36). -/
def ck_users_rating_range (rating : ℚ) : Bool :=
  decide (1 ≤ rating ∧ rating ≤ 5)

/-- Check constraint `ck_users_rating_increment`: `(rating * 10) % 5 = 0`
(src/app/db/db.py lines 42-45), with SQLite's integer-casting `%`, whose
result takes the sign of the dividend. -/
def ck_users_rating_increment (rating : ℚ) : Bool :=
  decide ((sqliteCastToInt (rating * 10)).tmod (sqliteCastToInt 5) = 0)

/-- A value passes both of the persistence schema's checked constraints. -/
def schemaAccepts (rating : ℚ) : Bool :=
  ck_users_rating_range rating && ck_users_rating_increment rating

/-- A value passes the validation layer's rating rule. -/
def validatorAccepts (v : ℚ) : Bool :=
  match rating_must_be_valid (some v) with
  | Except.ok _ => true
  | Except.error _ => false

/-- The nine admissible ratings listed by the specification. -/
def starRatings : List ℚ := [1, 3/2, 2, 5/2, 3, 7/2, 4, 9/2, 5]

/-- Membership in `starRatings` up to the stated tolerance of 1e-9 on
`r * 2`: the specification's reading of "r ∈ {1.0, 1.5, ..., 5.0} within the
stated floating-point tolerance". -/
def inStarRatingSet (r : ℚ) : Prop :=
  ∃ s ∈ starRatings, |r * 2 - s * 2| ≤ epsilon

/-- The ten create requests of the pagination scenario:
users `user_0` .. `user_9` in that order. -/
def tenUserRequests : List CreateRequest :=
  (List.range 10).map (fun i =>
    ⟨"user_" ++ toString i, "user_" ++ toString i ++ "@example.com", none,
     some (some 3)⟩)

/-- The store after creating the ten users of the pagination scenario,
starting from an empty store. -/
def tenUserDb : List User :=
  tenUserRequests.foldl (fun db req => (handle_create req db).2) []

/-- Rounding an exact integer leaves it unchanged. -/
theorem pyRound_intCast (n : ℤ) : pyRound (n : ℚ) = n := by
  unfold pyRound
  rw [Int.floor_intCast]
  rw [if_pos (by norm_num)]

/-- A value within less than one half of an integer rounds to that integer. -/
theorem pyRound_eq_of_close (q : ℚ) (n : ℤ) (h : |q - (n : ℚ)| < 1/2) :
    pyRound q = n := by
  rw [abs_sub_lt_iff] at h
  obtain ⟨h1, h2⟩ := h
  rcases le_or_lt (n : ℚ) q with hle | hlt
  · have hf : ⌊q⌋ = n := by
      rw [Int.floor_eq_iff]
      refine ⟨hle, ?_⟩
      linarith
    unfold pyRound
    rw [hf]
    rw [if_pos (by linarith)]
  · have hf : ⌊q⌋ = n - 1 := by
      rw [Int.floor_eq_iff]
      push_cast
      constructor <;> linarith
    unfold pyRound
    rw [hf]
    have hc1 : ¬(q - ((n - 1 : ℤ) : ℚ) < 1/2) := by push_cast; linarith
    have hc2 : 1/2 < q - ((n - 1 : ℤ) : ℚ) := by push_cast; linarith
    rw [if_neg hc1, if_pos hc2]
    omega

/-- Normal form of the validator on a numeric value: since an integer modulo
one is always zero, the second disjunct of the increment check never fires,
and the validator reduces to the exact range check followed by the tolerance
comparison. -/
theorem rating_must_be_valid_eq (v : ℚ) :
    rating_must_be_valid (some v) =
      if 1 ≤ v ∧ v ≤ 5 then
        if |v * 2 - (pyRound (v * 2) : ℚ)| ≤ epsilon then Except.ok v
        else Except.error "Rating must be in increments of 0.5 (e.g., 1.0, 1.5, 2.0)"
      else Except.error "Rating must be between 1.0 and 5.0" := by
  unfold rating_must_be_valid
  simp only [Int.emod_one, ne_eq, not_true_eq_false, or_false, gt_iff_lt, not_lt]
  split_ifs with h1 h2 h3 <;> first | rfl | linarith

/-- The validator accepts exactly the values that pass the exact range check
and whose doubled value is within the tolerance of its rounding. -/
theorem validatorAccepts_iff (v : ℚ) :
    validatorAccepts v = true ↔
      (1 ≤ v ∧ v ≤ 5) ∧ |v * 2 - (pyRound (v * 2) : ℚ)| ≤ epsilon := by
  unfold validatorAccepts
  rw [rating_must_be_valid_eq]
  by_cases h1 : 1 ≤ v ∧ v ≤ 5
  · by_cases h2 : |v * 2 - (pyRound (v * 2) : ℚ)| ≤ epsilon
    · rw [if_pos h1, if_pos h2]
      simp [h1, h2]
    · rw [if_pos h1, if_neg h2]
      simp [h1, h2]
  · rw [if_neg h1]
    simp [h1]

/-- An accepted value comes back unchanged from the validator. -/
theorem rating_ok_of_accepts (v : ℚ) (h : validatorAccepts v = true) :
    rating_must_be_valid (some v) = Except.ok v := by
  rw [validatorAccepts_iff] at h
  rw [rating_must_be_valid_eq, if_pos h.1, if_pos h.2]

/-- A rejected value produces some error message. -/
theorem rating_error_of_not_accepts (v : ℚ) (h : validatorAccepts v = false) :
    ∃ e, rating_must_be_valid (some v) = Except.error e := by
  rw [rating_must_be_valid_eq]
  by_cases h1 : 1 ≤ v ∧ v ≤ 5
  · by_cases h2 : |v * 2 - (pyRound (v * 2) : ℚ)| ≤ epsilon
    · have := (validatorAccepts_iff v).2 ⟨h1, h2⟩
      rw [h] at this
      cases this
    · rw [if_pos h1, if_neg h2]
      exact ⟨_, rfl⟩
  · rw [if_neg h1]
    exact ⟨_, rfl⟩

/-- A fifth of an integer not divisible by five stays at distance at least
one fifth from every integer. -/
theorem fifth_far_from_int (d : ℤ) (hd : ¬(5 ∣ d)) (n : ℤ) :
    1/5 ≤ |(d : ℚ)/5 - (n : ℚ)| := by
  have hne : d - 5 * n ≠ 0 := fun hc => hd ⟨n, by omega⟩
  have h1 : (1 : ℤ) ≤ |d - 5 * n| := Int.one_le_abs hne
  have heq : (d : ℚ)/5 - (n : ℚ) = ((d - 5 * n : ℤ) : ℚ)/5 := by
    push_cast
    ring
  rw [heq, abs_div, abs_of_nonneg (by norm_num : (0:ℚ) ≤ 5)]
  have h2 : (1 : ℚ) ≤ |((d - 5 * n : ℤ) : ℚ)| := by
    rw [← Int.cast_abs]
    exact_mod_cast h1
  linarith

/-- Casting an exact integer value to INTEGER is the identity. -/
theorem sqliteCastToInt_intCast (n : ℤ) : sqliteCastToInt (n : ℚ) = n := by
  unfold sqliteCastToInt
  split_ifs with h
  · exact Int.floor_intCast n
  · exact Int.ceil_intCast n

/-- On a value with one fractional decimal digit, the schema's increment
constraint holds exactly when the numerator is divisible by five. -/
theorem ck_increment_iff (d : ℤ) (hd : 0 ≤ d) :
    ck_users_rating_increment ((d : ℚ)/10) = true ↔ 5 ∣ d := by
  unfold ck_users_rating_increment
  have h10 : ((d : ℚ)/10) * 10 = (d : ℚ) := by field_simp
  have h5 : ((5 : ℚ)) = ((5 : ℤ) : ℚ) := by norm_num
  rw [decide_eq_true_eq, h10, h5, sqliteCastToInt_intCast, sqliteCastToInt_intCast]
  rw [Int.tmod_eq_emod hd (by norm_num)]
  constructor
  · exact Int.dvd_of_emod_eq_zero
  · exact Int.emod_eq_zero_of_dvd

/-- The range check on a value with one fractional decimal digit, in terms
of the integer numerator. -/
theorem range_div_ten (d : ℤ) :
    (1 ≤ (d : ℚ)/10 ∧ (d : ℚ)/10 ≤ 5) ↔ (10 ≤ d ∧ d ≤ 50) := by
  constructor
  · rintro ⟨a, b⟩
    have ha : (10 : ℚ) ≤ (d : ℚ) := by linarith
    have hb : (d : ℚ) ≤ (50 : ℚ) := by linarith
    exact ⟨by exact_mod_cast ha, by exact_mod_cast hb⟩
  · rintro ⟨a, b⟩
    have ha : (10 : ℚ) ≤ (d : ℚ) := by exact_mod_cast a
    have hb : (d : ℚ) ≤ (50 : ℚ) := by exact_mod_cast b
    constructor <;> linarith

/-- Every half-integer between one and five is one of the nine admissible
ratings. -/
theorem half_mem_starRatings (n : ℤ) (h1 : 2 ≤ n) (h2 : n ≤ 10) :
    (n : ℚ)/2 ∈ starRatings := by
  interval_cases n <;> norm_num [starRatings]

/-- Being within tolerance of some integer puts the rounding of the value
within tolerance as well. -/
theorem tol_of_close_int (r : ℚ) (m : ℤ) (h : |r * 2 - (m : ℚ)| ≤ epsilon) :
    |r * 2 - (pyRound (r * 2) : ℚ)| ≤ epsilon := by
  rw [pyRound_eq_of_close (r * 2) m (lt_of_le_of_lt h (by norm_num [epsilon]))]
  exact h

/-- For a value passing the exact range check, the validator's tolerance
condition coincides with membership, up to the tolerance, in the nine
admissible ratings. -/
theorem tolerance_iff_star (r : ℚ) (h : 1 ≤ r ∧ r ≤ 5) :
    |r * 2 - (pyRound (r * 2) : ℚ)| ≤ epsilon ↔ inStarRatingSet r := by
  constructor
  · intro htol
    have heps : epsilon = 1/1000000000 := rfl
    rw [abs_le] at htol
    have hn2 : 2 ≤ pyRound (r * 2) := by
      have : (1 : ℚ) < (pyRound (r * 2) : ℚ) := by
        rw [heps] at htol
        nlinarith [h.1, htol.1, htol.2]
      have h' : (1 : ℤ) < pyRound (r * 2) := by exact_mod_cast this
      omega
    have hn10 : pyRound (r * 2) ≤ 10 := by
      have : (pyRound (r * 2) : ℚ) < 11 := by
        rw [heps] at htol
        nlinarith [h.2, htol.1, htol.2]
      have h' : pyRound (r * 2) < (11 : ℤ) := by exact_mod_cast this
      omega
    refine ⟨(pyRound (r * 2) : ℚ)/2, half_mem_starRatings _ hn2 hn10, ?_⟩
    have hdouble : ((pyRound (r * 2) : ℚ)/2) * 2 = (pyRound (r * 2) : ℚ) := by
      ring
    rw [hdouble, abs_le]
    exact htol
  · rintro ⟨s, hs, hclose⟩
    have hmem : ∃ m : ℤ, s * 2 = (m : ℚ) := by
      fin_cases hs
      · exact ⟨2, by norm_num⟩
      · exact ⟨3, by norm_num⟩
      · exact ⟨4, by norm_num⟩
      · exact ⟨5, by norm_num⟩
      · exact ⟨6, by norm_num⟩
      · exact ⟨7, by norm_num⟩
      · exact ⟨8, by norm_num⟩
      · exact ⟨9, by norm_num⟩
      · exact ⟨10, by norm_num⟩
    obtain ⟨m, hm⟩ := hmem
    rw [hm] at hclose
    exact tol_of_close_int r m hclose

/-- Inserting with no username or email conflict appends exactly one row
carrying the request's data and the next autoincrement id. -/
theorem create_user_no_conflict (u : UserCreate) (db : List User)
    (hu : ∀ r ∈ db, r.username ≠ u.username)
    (he : ∀ r ∈ db, r.email ≠ u.email) :
    create_user u db =
      (Except.ok ⟨db.length + 1, u.username, u.email, u.full_name, u.rating⟩,
       db ++ [⟨db.length + 1, u.username, u.email, u.full_name, u.rating⟩]) := by
  have hfu : db.find? (fun x => x.username == u.username) = none := by
    rw [List.find?_eq_none]
    intro x hxmem
    simp [hu x hxmem]
  have hfe : db.find? (fun x => x.email == u.email) = none := by
    rw [List.find?_eq_none]
    intro x hxmem
    simp [he x hxmem]
  unfold create_user
  rw [hfu, hfe]

/-- C7: the persistence schema's two checked constraints (range, and
`(rating * 10) % 5 = 0` under SQLite's integer-casting `%`) accept exactly
the same ratings as the validation layer's rule, for every value
representable with one fractional decimal digit. -/
theorem schema_constraints_match_validator (d : ℤ) :
    (schemaAccepts ((d : ℚ)/10) = true ↔ validatorAccepts ((d : ℚ)/10) = true) := by
  unfold schemaAccepts ck_users_rating_range
  rw [Bool.and_eq_true, decide_eq_true_eq, validatorAccepts_iff]
  by_cases hr : 1 ≤ (d : ℚ)/10 ∧ (d : ℚ)/10 ≤ 5
  · have hd : 10 ≤ d ∧ d ≤ 50 := (range_div_ten d).1 hr
    have hd0 : (0 : ℤ) ≤ d := by omega
    rw [ck_increment_iff d hd0]
    have hsc : (d : ℚ)/10 * 2 = (d : ℚ)/5 := by ring
    constructor
    · rintro ⟨-, hdvd⟩
      refine ⟨hr, ?_⟩
      obtain ⟨k, hk⟩ := hdvd
      have hk5 : (d : ℚ)/5 = (k : ℚ) := by
        rw [hk]
        push_cast
        ring
      rw [hsc, hk5, pyRound_intCast]
      norm_num [epsilon]
    · rintro ⟨-, htol⟩
      refine ⟨hr, ?_⟩
      rw [hsc] at htol
      by_contra hdvd
      have hfar := fifth_far_from_int d hdvd (pyRound ((d : ℚ)/5))
      have heps : epsilon = 1/1000000000 := rfl
      rw [heps] at htol
      linarith
  · constructor
    · rintro ⟨h, -⟩
      exact absurd h hr
    · rintro ⟨h, -⟩
      exact absurd h hr

/-- C8: reads are side-effect-free and deterministic over the store state:
`read_users` leaves the store unchanged, and calling it a second time with
the same arguments and no intervening writes is identical to the first
call. -/
theorem read_users_idempotent (skip limit : ℕ) (db : List User) :
    (read_users skip limit db).2 = db ∧
    read_users skip limit ((read_users skip limit db).2) =
      read_users skip limit db :=
  ⟨rfl, rfl⟩

/-- C2: after creating users `user_0` .. `user_9`, in that order, into an
empty store, `read_users` with skip 2 and limit 3 returns exactly the rows
of `user_2`, `user_3`, `user_4`, in that order. -/
theorem read_users_pagination :
    (read_users 2 3 tenUserDb).1 =
      [⟨3, "user_2", "user_2@example.com", none, 3⟩,
       ⟨4, "user_3", "user_3@example.com", none, 3⟩,
       ⟨5, "user_4", "user_4@example.com", none, 3⟩] := by
  with_unfolding_all decide

/-- C9: an explicit null rating fails Pydantic's type check with the message
"Input should be a valid number": the request is rejected with a 422 before
any storage access, the 3.0 default is not applied, and the message differs
from both the range message and the increment message of the validator. -/
theorem explicit_null_rating (db : List User) (username email : String)
    (fn : Option String) :
    handle_create ⟨username, email, fn, some none⟩ db =
      (Except.error (422, "Input should be a valid number"), db) ∧
    "Input should be a valid number" ≠ "Rating must be between 1.0 and 5.0" ∧
    "Input should be a valid number" ≠
      "Rating must be in increments of 0.5 (e.g., 1.0, 1.5, 2.0)" :=
  ⟨rfl, by decide, by decide⟩

/-- C3: creating a user whose username or email equals that of a stored row
fails with the corresponding HTTP 400 conflict error and leaves the store
unchanged: a username conflict reports "Username already registered", and
otherwise an email conflict reports "Email already registered". -/
theorem create_user_uniqueness (db : List User) (u : UserCreate) :
    ((∃ r ∈ db, r.username = u.username) →
      create_user u db = (Except.error (400, "Username already registered"), db)) ∧
    ((∀ r ∈ db, r.username ≠ u.username) → (∃ r ∈ db, r.email = u.email) →
      create_user u db = (Except.error (400, "Email already registered"), db)) := by
  constructor
  · rintro ⟨r, hr, hname⟩
    have hfind : (db.find? (fun x => x.username == u.username)).isSome = true := by
      rw [List.find?_isSome]
      exact ⟨r, hr, by simp [hname]⟩
    obtain ⟨x, hx⟩ := Option.isSome_iff_exists.mp hfind
    unfold create_user
    rw [hx]
  · intro hnone
    rintro ⟨r, hr, hemail⟩
    have hfindu : db.find? (fun x => x.username == u.username) = none := by
      rw [List.find?_eq_none]
      intro x hxmem
      simp [hnone x hxmem]
    have hfinde : (db.find? (fun x => x.email == u.email)).isSome = true := by
      rw [List.find?_isSome]
      exact ⟨r, hr, by simp [hemail]⟩
    obtain ⟨x, hx⟩ := Option.isSome_iff_exists.mp hfinde
    unfold create_user
    rw [hfindu, hx]

/-- Witness for C3: against a store holding alice, a duplicate username and
a duplicate email each produce the corresponding conflict error and leave
the store unchanged. -/
theorem create_user_uniqueness_witness :
    create_user ⟨"alice", "b@example.com", none, 3⟩
        [⟨1, "alice", "a@example.com", none, 3⟩] =
      (Except.error (400, "Username already registered"),
       [⟨1, "alice", "a@example.com", none, 3⟩]) ∧
    create_user ⟨"bob", "a@example.com", none, 3⟩
        [⟨1, "alice", "a@example.com", none, 3⟩] =
      (Except.error (400, "Email already registered"),
       [⟨1, "alice", "a@example.com", none, 3⟩]) :=
  ⟨(create_user_uniqueness _ _).1
      ⟨⟨1, "alice", "a@example.com", none, 3⟩, by simp, rfl⟩,
   (create_user_uniqueness _ _).2 (by simp)
      ⟨⟨1, "alice", "a@example.com", none, 3⟩, by simp, rfl⟩⟩

/-- C4: a create request omitting the rating field, with valid data and no
uniqueness conflict, succeeds and the stored record's rating is exactly
3.0. -/
theorem create_user_default_rating (db : List User) (username email : String)
    (fn : Option String)
    (hu : ∀ r ∈ db, r.username ≠ username) (he : ∀ r ∈ db, r.email ≠ email) :
    handle_create ⟨username, email, fn, none⟩ db =
      (Except.ok ⟨db.length + 1, username, email, fn, 3⟩,
       db ++ [⟨db.length + 1, username, email, fn, 3⟩]) :=
  create_user_no_conflict ⟨username, email, fn, 3⟩ db hu he

/-- Witness for C4: creating carol with no rating field in an empty store
yields the row with rating exactly 3. -/
theorem create_user_default_rating_witness :
    handle_create ⟨"carol", "carol@example.com", none, none⟩ [] =
      (Except.ok ⟨1, "carol", "carol@example.com", none, 3⟩,
       [⟨1, "carol", "carol@example.com", none, 3⟩]) :=
  create_user_default_rating [] "carol" "carol@example.com" none
    (by simp) (by simp)

/-- C1 (amended): with no uniqueness conflict, creation succeeds exactly
when the rating passes the exact range check and lies, up to the stated
1e-9 tolerance on its double, in {1.0, 1.5, ..., 5.0}; and every rating the
validation layer rejects leaves the store untouched. -/
theorem create_user_rating_acceptance (db : List User) (username email : String)
    (fn : Option String) (r : ℚ)
    (hu : ∀ x ∈ db, x.username ≠ username) (he : ∀ x ∈ db, x.email ≠ email) :
    ((∃ u, (handle_create ⟨username, email, fn, some (some r)⟩ db).1 =
        Except.ok u) ↔
      ((1 ≤ r ∧ r ≤ 5) ∧ inStarRatingSet r)) ∧
    (validatorAccepts r = false →
      (handle_create ⟨username, email, fn, some (some r)⟩ db).2 = db) := by
  by_cases ha : validatorAccepts r = true
  · have hrange := (validatorAccepts_iff r).1 ha
    have hre := rating_ok_of_accepts r ha
    have hcreate := create_user_no_conflict ⟨username, email, fn, r⟩ db hu he
    have heq : handle_create ⟨username, email, fn, some (some r)⟩ db =
        create_user ⟨username, email, fn, r⟩ db := by
      simp only [handle_create, parseUserCreate, hre]
    constructor
    · constructor
      · intro hex
        exact ⟨hrange.1, (tolerance_iff_star r hrange.1).1 hrange.2⟩
      · intro hstar
        refine ⟨⟨db.length + 1, username, email, fn, r⟩, ?_⟩
        rw [heq, hcreate]
    · intro hfalse
      rw [ha] at hfalse
      cases hfalse
  · have hfalse : validatorAccepts r = false := by
      cases hvb : validatorAccepts r
      · rfl
      · exact absurd hvb ha
    obtain ⟨e, hre⟩ := rating_error_of_not_accepts r hfalse
    have heq : handle_create ⟨username, email, fn, some (some r)⟩ db =
        (Except.error (422, e), db) := by
      simp only [handle_create, parseUserCreate, hre]
    constructor
    · constructor
      · rintro ⟨u, hok1⟩
        rw [heq] at hok1
        cases hok1
      · rintro ⟨hrange, hstar⟩
        have := (validatorAccepts_iff r).2
          ⟨hrange, (tolerance_iff_star r hrange).2 hstar⟩
        rw [hfalse] at this
        cases this
    · intro hf2
      rw [heq]

/-- Witness for C1 (amended) at the accepted rating 4.5 in an empty store. -/
theorem create_user_rating_acceptance_witness :
    ((∃ u, (handle_create ⟨"dave", "dave@example.com", none,
        some (some (9/2))⟩ []).1 = Except.ok u) ↔
      ((1 ≤ (9/2 : ℚ) ∧ (9/2 : ℚ) ≤ 5) ∧ inStarRatingSet (9/2))) ∧
    (validatorAccepts (9/2) = false →
      (handle_create ⟨"dave", "dave@example.com", none,
        some (some (9/2))⟩ []).2 = []) :=
  create_user_rating_acceptance [] "dave" "dave@example.com" none (9/2)
    (by simp) (by simp)

/-- Counterexample to C1 as stated: the rating 5 + 1e-10 lies within the
stated tolerance of the admissible set (its double is within 1e-9 of 10),
yet creation fails, because the range check compares the value itself
exactly against the bounds. -/
theorem create_user_rating_acceptance_cex :
    inStarRatingSet (50000000001/10000000000) ∧
    validatorAccepts (50000000001/10000000000) = false ∧
    (handle_create ⟨"erin", "erin@example.com", none,
        some (some (50000000001/10000000000))⟩ []).1 =
      Except.error (422, "Rating must be between 1.0 and 5.0") := by
  have hout : ¬(1 ≤ (50000000001/10000000000 : ℚ) ∧
      (50000000001/10000000000 : ℚ) ≤ 5) := by
    norm_num
  have herr : rating_must_be_valid (some (50000000001/10000000000 : ℚ)) =
      Except.error "Rating must be between 1.0 and 5.0" := by
    rw [rating_must_be_valid_eq, if_neg hout]
  have hfalse : validatorAccepts (50000000001/10000000000 : ℚ) = false := by
    cases hvb : validatorAccepts (50000000001/10000000000 : ℚ)
    · rfl
    · exact absurd ((validatorAccepts_iff _).1 hvb) (fun hc => hout hc.1)
  refine ⟨⟨5, by norm_num [starRatings], ?_⟩, hfalse, ?_⟩
  · rw [abs_le]
    constructor <;> norm_num [epsilon]
  · simp only [handle_create, parseUserCreate, herr]

/-- C5 (amended): for every value inside the inclusive range [1.0, 5.0] the
validator accepts exactly when |v*2 - round(v*2)| ≤ 1e-9, and a rejection of
such a value carries the increment message, whose exact text is
"Rating must be in increments of 0.5 (e.g., 1.0, 1.5, 2.0)". -/
theorem rating_increment_rule (v : ℚ) (h1 : 1 ≤ v) (h2 : v ≤ 5) :
    (validatorAccepts v = true ↔ |v * 2 - (pyRound (v * 2) : ℚ)| ≤ epsilon) ∧
    (validatorAccepts v = false →
      rating_must_be_valid (some v) =
        Except.error "Rating must be in increments of 0.5 (e.g., 1.0, 1.5, 2.0)") := by
  constructor
  · rw [validatorAccepts_iff]
    constructor
    · rintro ⟨-, ht⟩
      exact ht
    · intro ht
      exact ⟨⟨h1, h2⟩, ht⟩
  · intro hfalse
    have hnt : ¬(|v * 2 - (pyRound (v * 2) : ℚ)| ≤ epsilon) := by
      intro hle
      have := (validatorAccepts_iff v).2 ⟨⟨h1, h2⟩, hle⟩
      rw [hfalse] at this
      cases this
    rw [rating_must_be_valid_eq, if_pos ⟨h1, h2⟩, if_neg hnt]

/-- Witness for C5 (amended) at the in-range, rejected value 3.2. -/
theorem rating_increment_rule_witness :
    (validatorAccepts (16/5) = true ↔
      |(16/5 : ℚ) * 2 - (pyRound ((16/5 : ℚ) * 2) : ℚ)| ≤ epsilon) ∧
    (validatorAccepts (16/5) = false →
      rating_must_be_valid (some (16/5)) =
        Except.error "Rating must be in increments of 0.5 (e.g., 1.0, 1.5, 2.0)") :=
  rating_increment_rule (16/5) (by norm_num) (by norm_num)

/-- Counterexample to C5 as stated: at 3.2 the validator rejects, but not
with the claimed message "rating must be in increments of 0.5" -- the
message the code raises reads
"Rating must be in increments of 0.5 (e.g., 1.0, 1.5, 2.0)". -/
theorem rating_increment_message_cex :
    (1 ≤ (16/5 : ℚ) ∧ (16/5 : ℚ) ≤ 5) ∧
    (∃ e, rating_must_be_valid (some (16/5)) = Except.error e) ∧
    rating_must_be_valid (some (16/5)) ≠
      Except.error "rating must be in increments of 0.5" := by
  refine ⟨by norm_num,
    ⟨"Rating must be in increments of 0.5 (e.g., 1.0, 1.5, 2.0)", ?_⟩, ?_⟩
  · with_unfolding_all decide
  · with_unfolding_all decide

/-- C6 (amended): every value outside the inclusive range [1.0, 5.0] is
rejected with the range message, whose exact text is
"Rating must be between 1.0 and 5.0", and the boundary values 1.0 and 5.0
themselves are accepted by the validator. -/
theorem rating_range_rule (v : ℚ) (h : ¬(1 ≤ v ∧ v ≤ 5)) :
    rating_must_be_valid (some v) =
      Except.error "Rating must be between 1.0 and 5.0" ∧
    rating_must_be_valid (some 1) = Except.ok 1 ∧
    rating_must_be_valid (some 5) = Except.ok 5 := by
  refine ⟨?_, ?_, ?_⟩
  · rw [rating_must_be_valid_eq, if_neg h]
  · with_unfolding_all decide
  · with_unfolding_all decide

/-- Witness for C6 (amended) at the out-of-range value 5.5. -/
theorem rating_range_rule_witness :
    rating_must_be_valid (some (11/2)) =
      Except.error "Rating must be between 1.0 and 5.0" ∧
    rating_must_be_valid (some 1) = Except.ok 1 ∧
    rating_must_be_valid (some 5) = Except.ok 5 :=
  rating_range_rule (11/2) (by norm_num)

/-- Counterexample to C6 as stated: at 0.5 the validator rejects, but not
with the claimed message "rating must be between 1.0 and 5.0" -- the message
the code raises reads "Rating must be between 1.0 and 5.0". -/
theorem rating_range_message_cex :
    ¬(1 ≤ (1/2 : ℚ) ∧ (1/2 : ℚ) ≤ 5) ∧
    (∃ e, rating_must_be_valid (some (1/2)) = Except.error e) ∧
    rating_must_be_valid (some (1/2)) ≠
      Except.error "rating must be between 1.0 and 5.0" := by
  refine ⟨by norm_num, ⟨"Rating must be between 1.0 and 5.0", ?_⟩, ?_⟩
  · with_unfolding_all decide
  · with_unfolding_all decide

/-- C10: the validator applies the range check before the increment check:
a value failing both (outside the range and with its double farther than the
tolerance from its rounding) is reported with the range message and never
with the increment message. -/
theorem range_check_precedes_increment (v : ℚ)
    (hout : ¬(1 ≤ v ∧ v ≤ 5))
    (_hinc : epsilon < |v * 2 - (pyRound (v * 2) : ℚ)|) :
    rating_must_be_valid (some v) =
      Except.error "Rating must be between 1.0 and 5.0" ∧
    rating_must_be_valid (some v) ≠
      Except.error "Rating must be in increments of 0.5 (e.g., 1.0, 1.5, 2.0)" := by
  have h := rating_must_be_valid_eq v
  rw [if_neg hout] at h
  refine ⟨h, ?_⟩
  rw [h]
  intro hc
  have hmsg : ("Rating must be between 1.0 and 5.0" : String) =
      "Rating must be in increments of 0.5 (e.g., 1.0, 1.5, 2.0)" := by
    injection hc
  exact absurd hmsg (by decide)

/-- Witness for C10 at 5.7, which is out of range and not a multiple of
one half. -/
theorem range_check_precedes_increment_witness :
    rating_must_be_valid (some (57/10)) =
      Except.error "Rating must be between 1.0 and 5.0" ∧
    rating_must_be_valid (some (57/10)) ≠
      Except.error "Rating must be in increments of 0.5 (e.g., 1.0, 1.5, 2.0)" :=
  range_check_precedes_increment (57/10) (by norm_num)
    (by with_unfolding_all decide)

